import Mathlib

/-!
Shallow embedding of `src/include/knowhere/comp/thread_pool.h` (knowhere
thread-pool unit): the `ThreadPool` class, the global build/search pool
registry, the `ScopedOmpSetter` guard and the `WaitAllSuccess` aggregator.

The folly `CPUThreadPoolExecutor` collaborator is modelled at its interface
boundary (configured thread count, fixed queue capacity, thread-name prefix),
as the unit only reads and writes those. Log output is modelled as a list of
log entries identified by call site; message text is irrelevant to behaviour.
All registry functions are modelled sequentially (the double-checked locking
collapses to a single null check). `uint32_t` parameters are modelled as
`Nat` values below `2 ^ 32`; `int32_t` results via two's-complement
truncation (`toInt32`); `int` (OMP) values as `Int`.
-/

namespace KnowhereTP

/-- Two's-complement interpretation of a `Nat` as a C `int32_t`, as produced
by the implicit conversion in `ThreadPool::size()` (which returns the
executor's `size_t` thread count through an `int32_t` return type). -/
def toInt32 (n : Nat) : Int :=
  let m := n % 4294967296
  if m < 2147483648 then (m : Int) else (m : Int) - 4294967296

/-- Entries of the knowhere log, identified by emitting call site. -/
inductive LogEntry : Type
  /-- ThreadPool.SetNumThreads: set number of threads can not be 0 -/
  | errSetNumThreadsZero : LogEntry
  /-- InitGlobalBuild/SearchThreadPool: num_threads should be bigger than 0 -/
  | errNumThreadsNotPositive : LogEntry
  /-- Init global build thread pool with size n -/
  | infoInitBuildPool (n : Nat) : LogEntry
  /-- Global build thread pool size has already been initialized to sz -/
  | infoBuildPoolAlreadyInit (sz : Int) : LogEntry
  /-- Global build thread pool size has already been set to sz -/
  | infoBuildPoolSet (sz : Int) : LogEntry
  /-- Init global search thread pool with size n -/
  | infoInitSearchPool (n : Nat) : LogEntry
  /-- Global search thread pool size has already been initialized to sz -/
  | infoSearchPoolAlreadyInit (sz : Int) : LogEntry
  /-- Global search thread pool size has already been set to sz -/
  | infoSearchPoolSet (sz : Int) : LogEntry
deriving DecidableEq, Repr

/-- ThreadPool::kTaskQueueFactor. -/
def kTaskQueueFactor : Nat := 16

/-- State of a `ThreadPool`: the folly executor's configured thread count,
the capacity its bounded `LifoSemMPMCQueue` was constructed with, and the
worker-thread name prefix handed to the thread factory. -/
structure ThreadPool : Type where
  numThreads : Nat
  queueCapacity : Nat
  threadNamePfx : String
deriving DecidableEq, Repr

/-- The `ThreadPool(uint32_t num_threads, const std::string&)` constructor:
builds the executor with `num_threads` threads and a queue of capacity
`num_threads * kTaskQueueFactor`. It performs no validation of
`num_threads` and emits no log entry. -/
def mkThreadPool (num_threads : Nat) (pfx : String) : ThreadPool :=
  { numThreads := num_threads
    queueCapacity := num_threads * kTaskQueueFactor
    threadNamePfx := pfx }

/-- ThreadPool::size(): returns `pool_.numThreads()` through an `int32_t`. -/
def ThreadPool.size (p : ThreadPool) : Int :=
  toInt32 p.numThreads

/-- ThreadPool::SetNumThreads(uint32_t): rejects 0 with an error log and no
mutation; otherwise updates the executor's thread count (the queue keeps its
construction-time capacity). -/
def ThreadPool.SetNumThreads (p : ThreadPool) (num_threads : Nat) :
    ThreadPool × List LogEntry :=
  if num_threads = 0 then
    (p, [LogEntry.errSetNumThreadsZero])
  else
    ({ p with numThreads := num_threads }, [])

/-- Thread-name prefix used by InitGlobalBuildThreadPool. -/
def buildPoolName : String := "knowhere_build"

/-- Thread-name prefix used by InitGlobalSearchThreadPool. -/
def searchPoolName : String := "knowhere_search"

/-- The static registry state: the two global pool pointers, plus counters
of how many times each `std::make_shared<ThreadPool>` construction site has
executed (used to state the at-most-one-construction invariant). -/
structure Registry : Type where
  build_pool_ : Option ThreadPool
  search_pool_ : Option ThreadPool
  buildCtorCalls : Nat
  searchCtorCalls : Nat
deriving DecidableEq, Repr

/-- The registry state at process start: both pools null. -/
def initialRegistry : Registry :=
  { build_pool_ := none, search_pool_ := none
    buildCtorCalls := 0, searchCtorCalls := 0 }

/-- ThreadPool::InitGlobalBuildThreadPool(uint32_t), sequentialized (the
double-checked lock collapses to one null check). -/
def InitGlobalBuildThreadPool (r : Registry) (num_threads : Nat) :
    Registry × List LogEntry :=
  if num_threads = 0 then
    (r, [LogEntry.errNumThreadsNotPositive])
  else
    match r.build_pool_ with
    | none =>
        ({ r with
            build_pool_ := some (mkThreadPool num_threads buildPoolName)
            buildCtorCalls := r.buildCtorCalls + 1 },
         [LogEntry.infoInitBuildPool num_threads])
    | some p => (r, [LogEntry.infoBuildPoolAlreadyInit p.size])

/-- ThreadPool::InitGlobalSearchThreadPool(uint32_t), sequentialized. -/
def InitGlobalSearchThreadPool (r : Registry) (num_threads : Nat) :
    Registry × List LogEntry :=
  if num_threads = 0 then
    (r, [LogEntry.errNumThreadsNotPositive])
  else
    match r.search_pool_ with
    | none =>
        ({ r with
            search_pool_ := some (mkThreadPool num_threads searchPoolName)
            searchCtorCalls := r.searchCtorCalls + 1 },
         [LogEntry.infoInitSearchPool num_threads])
    | some p => (r, [LogEntry.infoSearchPoolAlreadyInit p.size])

/-- ThreadPool::SetGlobalBuildThreadPoolSize(uint32_t). -/
def SetGlobalBuildThreadPoolSize (r : Registry) (num_threads : Nat) :
    Registry × List LogEntry :=
  match r.build_pool_ with
  | none => InitGlobalBuildThreadPool r num_threads
  | some p =>
      let res := p.SetNumThreads num_threads
      ({ r with build_pool_ := some res.1 },
       res.2 ++ [LogEntry.infoBuildPoolSet res.1.size])

/-- ThreadPool::SetGlobalSearchThreadPoolSize(uint32_t). -/
def SetGlobalSearchThreadPoolSize (r : Registry) (num_threads : Nat) :
    Registry × List LogEntry :=
  match r.search_pool_ with
  | none => InitGlobalSearchThreadPool r num_threads
  | some p =>
      let res := p.SetNumThreads num_threads
      ({ r with search_pool_ := some res.1 },
       res.2 ++ [LogEntry.infoSearchPoolSet res.1.size])

/-- ThreadPool::GetGlobalBuildThreadPool(): if the pool is null, runs
`InitGlobalBuildThreadPool(std::thread::hardware_concurrency())`, then
returns the (possibly still null) pool pointer. The detected hardware
concurrency is a parameter of the model. -/
def GetGlobalBuildThreadPool (r : Registry) (hardwareConcurrency : Nat) :
    Registry × List LogEntry × Option ThreadPool :=
  match r.build_pool_ with
  | none =>
      let res := InitGlobalBuildThreadPool r hardwareConcurrency
      (res.1, res.2, res.1.build_pool_)
  | some p => (r, [], some p)

/-- ThreadPool::GetGlobalSearchThreadPool(). -/
def GetGlobalSearchThreadPool (r : Registry) (hardwareConcurrency : Nat) :
    Registry × List LogEntry × Option ThreadPool :=
  match r.search_pool_ with
  | none =>
      let res := InitGlobalSearchThreadPool r hardwareConcurrency
      (res.1, res.2, res.1.search_pool_)
  | some p => (r, [], some p)

/-- One invocation of a registry operation (the `hc` arguments are the
hardware concurrency observed by a `Get` call). -/
inductive RegistryOp : Type
  | initBuild (n : Nat)
  | initSearch (n : Nat)
  | setBuildSize (n : Nat)
  | setSearchSize (n : Nat)
  | getBuild (hc : Nat)
  | getSearch (hc : Nat)
deriving DecidableEq, Repr

/-- Registry state after one operation. -/
def applyOp (r : Registry) (op : RegistryOp) : Registry :=
  match op with
  | RegistryOp.initBuild n => (InitGlobalBuildThreadPool r n).1
  | RegistryOp.initSearch n => (InitGlobalSearchThreadPool r n).1
  | RegistryOp.setBuildSize n => (SetGlobalBuildThreadPoolSize r n).1
  | RegistryOp.setSearchSize n => (SetGlobalSearchThreadPoolSize r n).1
  | RegistryOp.getBuild hc => (GetGlobalBuildThreadPool r hc).1
  | RegistryOp.getSearch hc => (GetGlobalSearchThreadPool r hc).1

/-- Registry state after a sequence of operations. -/
def applyOps (r : Registry) (ops : List RegistryOp) : Registry :=
  ops.foldl applyOp r

/-- State held by a live `ScopedOmpSetter`: the saved `omp_before` value. -/
structure ScopedOmpSetter : Type where
  omp_before : Int
deriving DecidableEq, Repr

/-- The `ScopedOmpSetter(int num_threads = 0)` constructor: records
`omp_before` from the build pool's `size()` when the build pool exists,
otherwise from `omp_get_max_threads()`, then calls
`omp_set_num_threads(num_threads <= 0 ? omp_before : num_threads)`.
Returns the guard and the new OMP max-threads value. -/
def mkScopedOmpSetter (buildPool : Option ThreadPool) (ompMax : Int)
    (num_threads : Int) : ScopedOmpSetter × Int :=
  let ob : Int :=
    match buildPool with
    | none => ompMax
    | some p => p.size
  (⟨ob⟩, if num_threads ≤ 0 then ob else num_threads)

/-- The `~ScopedOmpSetter()` destructor: `omp_set_num_threads(omp_before)`.
Returns the OMP max-threads value after the call. -/
def ScopedOmpSetter.destroy (s : ScopedOmpSetter) : Int :=
  s.omp_before

/-- OMP max-threads value after a scope guarded by a `ScopedOmpSetter`:
the guard is constructed, the body runs (it may itself change the OMP
setting: `body` maps the in-scope setting to the setting at scope end),
then the destructor runs. -/
def withScopedOmpSetter (buildPool : Option ThreadPool) (ompMax : Int)
    (num_threads : Int) (body : Int → Int) : Int :=
  let res := mkScopedOmpSetter buildPool ompMax num_threads
  let inScopeFinal := body res.2
  let _ := inScopeFinal
  res.1.destroy

/-- Modelled from the spec: the status-code payload type (knowhere::Status,
declared in `knowhere/expected.h`, which is outside this unit). Only the
distinction between the success code and non-success codes matters here. -/
inductive Status : Type
  | success
  | invalid_args
  | not_implemented
  | inner_error
deriving DecidableEq, Repr

/-- Result of an awaited folly future (a completed `folly::Try`): either a
value or a captured raised error, the latter identified by a tag. -/
inductive TryRes (T : Type) : Type
  | value (v : T)
  | exception (e : Nat)
deriving DecidableEq, Repr

/-- WaitAllSuccess instantiated at `T = Status`: after `collectAll`, scan
the completed results in order; `throwUnlessValue()` rethrows a captured
error, then a non-success value is returned; success if the scan finishes. -/
def WaitAllSuccessStatus : List (TryRes Status) → Except Nat Status
  | [] => Except.ok Status.success
  | TryRes.exception e :: _ => Except.error e
  | TryRes.value v :: rest =>
      if v = Status.success then WaitAllSuccessStatus rest
      else Except.ok v

/-- WaitAllSuccess instantiated at `T = folly::Unit`: the status check is
compiled out; only `throwUnlessValue()` runs per result. -/
def WaitAllSuccessUnit : List (TryRes Unit) → Except Nat Status
  | [] => Except.ok Status.success
  | TryRes.exception e :: _ => Except.error e
  | TryRes.value _ :: rest => WaitAllSuccessUnit rest

/-- Stated from the spec wording, for comparison with `WaitAllSuccessStatus`:
scan the statuses in sequence order and return the first non-success one;
success if all are successful. -/
def specFirstNonSuccess : List Status → Status
  | [] => Status.success
  | s :: rest =>
      if s = Status.success then specFirstNonSuccess rest else s

/-- Reachable-registry invariant: each construction-site counter is 1
exactly when the corresponding pool exists, 0 otherwise. -/
def RegistryInv (r : Registry) : Prop :=
  r.buildCtorCalls = (if r.build_pool_.isSome then 1 else 0) ∧
  r.searchCtorCalls = (if r.search_pool_.isSome then 1 else 0)

theorem registryInv_initial : RegistryInv initialRegistry := by
  constructor <;> rfl

theorem registryInv_applyOp (r : Registry) (op : RegistryOp)
    (h : RegistryInv r) : RegistryInv (applyOp r op) := by
  obtain ⟨hb, hs⟩ := h
  cases op with
  | initBuild n =>
      simp only [applyOp, InitGlobalBuildThreadPool]
      split
      · exact ⟨hb, hs⟩
      · cases hpool : r.build_pool_ with
        | none =>
            simp only [hpool] at hb ⊢
            simp only [Option.isSome_none, Bool.false_eq_true, if_false] at hb
            exact ⟨by simp [hb], hs⟩
        | some p => simp only [hpool]; exact ⟨hb, hs⟩
  | initSearch n =>
      simp only [applyOp, InitGlobalSearchThreadPool]
      split
      · exact ⟨hb, hs⟩
      · cases hpool : r.search_pool_ with
        | none =>
            simp only [hpool] at hs ⊢
            simp only [Option.isSome_none, Bool.false_eq_true, if_false] at hs
            exact ⟨hb, by simp [hs]⟩
        | some p => simp only [hpool]; exact ⟨hb, hs⟩
  | setBuildSize n =>
      simp only [applyOp, SetGlobalBuildThreadPoolSize]
      cases hpool : r.build_pool_ with
      | none =>
          simp only [InitGlobalBuildThreadPool]
          split
          · exact ⟨hb, hs⟩
          · simp only [hpool] at hb ⊢
            simp only [Option.isSome_none, Bool.false_eq_true, if_false] at hb
            exact ⟨by simp [hb], hs⟩
      | some p =>
          simp only [hpool] at hb ⊢
          exact ⟨by simpa using hb, hs⟩
  | setSearchSize n =>
      simp only [applyOp, SetGlobalSearchThreadPoolSize]
      cases hpool : r.search_pool_ with
      | none =>
          simp only [InitGlobalSearchThreadPool]
          split
          · exact ⟨hb, hs⟩
          · simp only [hpool] at hs ⊢
            simp only [Option.isSome_none, Bool.false_eq_true, if_false] at hs
            exact ⟨hb, by simp [hs]⟩
      | some p =>
          simp only [hpool] at hs ⊢
          exact ⟨hb, by simpa using hs⟩
  | getBuild hc =>
      simp only [applyOp, GetGlobalBuildThreadPool]
      cases hpool : r.build_pool_ with
      | none =>
          simp only [InitGlobalBuildThreadPool]
          split
          · exact ⟨hb, hs⟩
          · simp only [hpool] at hb ⊢
            simp only [Option.isSome_none, Bool.false_eq_true, if_false] at hb
            exact ⟨by simp [hb], hs⟩
      | some p => simp only [hpool]; exact ⟨hb, hs⟩
  | getSearch hc =>
      simp only [applyOp, GetGlobalSearchThreadPool]
      cases hpool : r.search_pool_ with
      | none =>
          simp only [InitGlobalSearchThreadPool]
          split
          · exact ⟨hb, hs⟩
          · simp only [hpool] at hs ⊢
            simp only [Option.isSome_none, Bool.false_eq_true, if_false] at hs
            exact ⟨hb, by simp [hs]⟩
      | some p => simp only [hpool]; exact ⟨hb, hs⟩

theorem registryInv_applyOps (r : Registry) (ops : List RegistryOp)
    (h : RegistryInv r) : RegistryInv (applyOps r ops) := by
  induction ops generalizing r with
  | nil => exact h
  | cons op rest ih => exact ih _ (registryInv_applyOp r op h)

theorem applyOp_preserves_build_pool (r : Registry) (op : RegistryOp)
    (p : ThreadPool) (h : r.build_pool_ = some p) :
    (applyOp r op).build_pool_.isSome = true ∧
    (applyOp r op).buildCtorCalls = r.buildCtorCalls := by
  cases op with
  | initBuild n =>
      simp only [applyOp, InitGlobalBuildThreadPool]
      split
      · simp [h]
      · simp [h]
  | initSearch n =>
      simp only [applyOp, InitGlobalSearchThreadPool]
      split
      · simp [h]
      · cases r.search_pool_ <;> simp [h]
  | setBuildSize n =>
      simp only [applyOp, SetGlobalBuildThreadPoolSize, h]
      simp
  | setSearchSize n =>
      simp only [applyOp, SetGlobalSearchThreadPoolSize]
      cases hpool : r.search_pool_ with
      | none =>
          simp only [InitGlobalSearchThreadPool]
          split
          · simp [h]
          · simp [hpool, h]
      | some q => simp [h]
  | getBuild hc =>
      simp only [applyOp, GetGlobalBuildThreadPool, h]
      simp
  | getSearch hc =>
      simp only [applyOp, GetGlobalSearchThreadPool]
      cases hpool : r.search_pool_ with
      | none =>
          simp only [InitGlobalSearchThreadPool]
          split
          · simp [h]
          · simp [hpool, h]
      | some q => simp [h]

/-- C1 counterexample: the claim says a raised-error signal is propagated
as a raised error regardless of the other handles' outcomes, including
non-success status codes. On the code, a non-success status earlier in the
sequence is returned before the later raised error is ever rethrown: here
the second handle carries a raised error, yet the call returns the first
handle's status as an ordinary value instead of raising. -/
theorem waitAllSuccess_status_shadows_error :
    WaitAllSuccessStatus
        [TryRes.value Status.invalid_args, TryRes.exception 7] =
      Except.ok Status.invalid_args := by
  rfl

/-- C1 (amended): a handle's raised error is propagated to the caller as a
raised error provided every handle before it in sequence order holds the
success value, regardless of the outcomes of the handles after it; for the
unit payload instantiation the prefix condition is just that the earlier
handles completed with values. -/
theorem waitAllSuccess_error_propagation
    (pre post : List (TryRes Status)) (e : Nat)
    (hpre : ∀ x ∈ pre, x = TryRes.value Status.success)
    (preU postU : List (TryRes Unit)) (eU : Nat)
    (hpreU : ∀ x ∈ preU, x = TryRes.value ()) :
    WaitAllSuccessStatus (pre ++ TryRes.exception e :: post) =
      Except.error e ∧
    WaitAllSuccessUnit (preU ++ TryRes.exception eU :: postU) =
      Except.error eU := by
  constructor
  · induction pre with
    | nil => rfl
    | cons x xs ih =>
        have hx : x = TryRes.value Status.success := hpre x (by simp)
        subst hx
        simpa [WaitAllSuccessStatus] using
          ih (fun y hy => hpre y (by simp [hy]))
  · induction preU with
    | nil => rfl
    | cons x xs ih =>
        have hx : x = TryRes.value () := hpreU x (by simp)
        subst hx
        simpa [WaitAllSuccessUnit] using
          ih (fun y hy => hpreU y (by simp [hy]))

/-- C1 witness: a success-valued handle, then a raised error, then a
non-success status; the error is raised. Unit case alongside. -/
theorem waitAllSuccess_error_propagation_witness :
    WaitAllSuccessStatus
        [TryRes.value Status.success, TryRes.exception 3,
         TryRes.value Status.invalid_args] =
      Except.error 3 ∧
    WaitAllSuccessUnit [TryRes.value (), TryRes.exception 5] =
      Except.error 5 :=
  waitAllSuccess_error_propagation
    [TryRes.value Status.success] [TryRes.value Status.invalid_args] 3
    (by decide) [TryRes.value ()] [] 5 (by decide)

/-- C2 counterexample: on a never-initialized registry, when the detected
hardware concurrency is 0 (which `std::thread::hardware_concurrency()` may
return), the lazy init is rejected by the positivity guard and both getters
return a null pool handle, contradicting the claim that a non-null handle
is returned for every runtime value of detected hardware concurrency. -/
theorem getGlobalPool_zero_hc_returns_null :
    (GetGlobalBuildThreadPool initialRegistry 0).2.2 = none ∧
    (GetGlobalSearchThreadPool initialRegistry 0).2.2 = none := by
  constructor <;> rfl

/-- C2 (amended): for every positive detected hardware concurrency below
2^31 (so that the `int32_t` returned by `size()` can represent it), a
getter on a never-initialized workload class returns a non-null pool whose
thread count and `size()` equal the detected concurrency; when detection
yields 0 the pool handle stays null. -/
theorem getGlobalPool_fresh_positive_hc (hc : Nat) (h1 : 0 < hc)
    (h2 : hc < 2147483648) :
    (GetGlobalBuildThreadPool initialRegistry hc).2.2 =
      some (mkThreadPool hc buildPoolName) ∧
    (mkThreadPool hc buildPoolName).numThreads = hc ∧
    (mkThreadPool hc buildPoolName).size = (hc : Int) ∧
    (GetGlobalSearchThreadPool initialRegistry hc).2.2 =
      some (mkThreadPool hc searchPoolName) ∧
    (mkThreadPool hc searchPoolName).size = (hc : Int) := by
  have hne : hc ≠ 0 := Nat.pos_iff_ne_zero.mp h1
  have hmod : hc % 4294967296 = hc :=
    Nat.mod_eq_of_lt (lt_trans h2 (by norm_num))
  have hsize : toInt32 hc = (hc : Int) := by
    simp only [toInt32, hmod]
    rw [if_pos (by exact_mod_cast h2)]
  refine ⟨?_, rfl, ?_, ?_, ?_⟩
  · simp [GetGlobalBuildThreadPool, InitGlobalBuildThreadPool,
      initialRegistry, hne]
  · simpa [ThreadPool.size, mkThreadPool] using hsize
  · simp [GetGlobalSearchThreadPool, InitGlobalSearchThreadPool,
      initialRegistry, hne]
  · simpa [ThreadPool.size, mkThreadPool] using hsize

/-- C2 witness: at detected hardware concurrency 8. -/
theorem getGlobalPool_fresh_positive_hc_witness :
    (GetGlobalBuildThreadPool initialRegistry 8).2.2 =
      some (mkThreadPool 8 buildPoolName) ∧
    (mkThreadPool 8 buildPoolName).numThreads = 8 ∧
    (mkThreadPool 8 buildPoolName).size = (8 : Int) ∧
    (GetGlobalSearchThreadPool initialRegistry 8).2.2 =
      some (mkThreadPool 8 searchPoolName) ∧
    (mkThreadPool 8 searchPoolName).size = (8 : Int) :=
  getGlobalPool_fresh_positive_hc 8 (by decide) (by decide)

/-- C3 counterexample: the claim says constructing a pool with
thread_count 0 is a logged no-op that leaves state unchanged. On the code
the constructor has no validation at all: passing 0 constructs a real pool
object with 0 worker threads and a queue of capacity 0, and no diagnostic
is emitted anywhere on that path. -/
theorem threadPool_ctor_zero_builds_pool :
    mkThreadPool 0 buildPoolName =
      { numThreads := 0, queueCapacity := 0,
        threadNamePfx := buildPoolName } := by
  rfl

/-- C3 (amended): the thread_count positivity guard with logged diagnostic
and no-op lives in the registry init operations and in `SetNumThreads`,
not in the `ThreadPool` constructor; the constructor performs no
validation and builds a pool with the given count (0 included) and queue
capacity count × 16, with no diagnostic. -/
theorem threadPool_ctor_unguarded (n : Nat) (pfx : String) (r : Registry)
    (p : ThreadPool) :
    (mkThreadPool n pfx).numThreads = n ∧
    (mkThreadPool n pfx).queueCapacity = n * kTaskQueueFactor ∧
    InitGlobalBuildThreadPool r 0 =
      (r, [LogEntry.errNumThreadsNotPositive]) ∧
    InitGlobalSearchThreadPool r 0 =
      (r, [LogEntry.errNumThreadsNotPositive]) ∧
    p.SetNumThreads 0 = (p, [LogEntry.errSetNumThreadsZero]) := by
  refine ⟨rfl, rfl, ?_, ?_, ?_⟩ <;>
    simp [InitGlobalBuildThreadPool, InitGlobalSearchThreadPool,
      ThreadPool.SetNumThreads]

/-- C4: with status payloads and no raised errors, `WaitAllSuccess` returns
exactly the spec-side scan result: the first non-success status in sequence
order, or success when all handles (any number, the empty vector included)
are successful. -/
theorem waitAllSuccess_refines_scan (statuses : List Status) :
    WaitAllSuccessStatus (statuses.map TryRes.value) =
      Except.ok (specFirstNonSuccess statuses) := by
  induction statuses with
  | nil => rfl
  | cons s rest ih =>
      by_cases hs : s = Status.success <;>
        simp [WaitAllSuccessStatus, specFirstNonSuccess, hs, ih]

/-- C8: `SetNumThreads(0)` leaves the pool (hence `size()`) unchanged and
emits exactly the error diagnostic, for every pool state. -/
theorem setNumThreads_zero_is_noop (p : ThreadPool) :
    (p.SetNumThreads 0).1 = p ∧
    (p.SetNumThreads 0).1.size = p.size ∧
    (p.SetNumThreads 0).2 = [LogEntry.errSetNumThreadsZero] := by
  refine ⟨rfl, rfl, rfl⟩

/-- C5: the guard records as prior the build pool's `size()` when the build
pool exists and the current OMP max-threads value otherwise; it sets the
OMP budget to `num_threads` when positive and to the recorded prior when
`num_threads ≤ 0`; and after the scope — whatever the body set the OMP
budget to in between — the destructor restores exactly the recorded
prior. -/
theorem scopedOmpSetter_records_sets_restores (bp : Option ThreadPool)
    (omp0 n : Int) (body : Int → Int) :
    (mkScopedOmpSetter bp omp0 n).1.omp_before =
      (match bp with
       | none => omp0
       | some p => p.size) ∧
    (mkScopedOmpSetter bp omp0 n).2 =
      (if n ≤ 0 then (mkScopedOmpSetter bp omp0 n).1.omp_before else n) ∧
    withScopedOmpSetter bp omp0 n body =
      (mkScopedOmpSetter bp omp0 n).1.omp_before := by
  cases bp <;>
    simp [mkScopedOmpSetter, withScopedOmpSetter, ScopedOmpSetter.destroy]

/-- C6: (i) on an unset build class, `init(a)` then `init(b)` with distinct
positive a, b leaves the pool constructed by the first call, of thread
count a, the second call changing nothing; (ii) after any sequence of
registry operations from process start, each per-class construction site
has run at most once; (iii) once a class holds a pool, no registry
operation replaces or removes it or constructs another one. -/
theorem globalPool_single_construction (a b : Nat) (ha : 0 < a)
    (hb : 0 < b) (hab : a ≠ b) :
    ((InitGlobalBuildThreadPool
        (InitGlobalBuildThreadPool initialRegistry a).1 b).1 =
      (InitGlobalBuildThreadPool initialRegistry a).1 ∧
     (InitGlobalBuildThreadPool
        (InitGlobalBuildThreadPool initialRegistry a).1 b).1.build_pool_ =
      some (mkThreadPool a buildPoolName)) ∧
    (∀ ops : List RegistryOp,
       (applyOps initialRegistry ops).buildCtorCalls ≤ 1 ∧
       (applyOps initialRegistry ops).searchCtorCalls ≤ 1) ∧
    (∀ (r : Registry) (op : RegistryOp) (p : ThreadPool),
       r.build_pool_ = some p →
       (applyOp r op).build_pool_.isSome = true ∧
       (applyOp r op).buildCtorCalls = r.buildCtorCalls) := by
  have hane : a ≠ 0 := Nat.pos_iff_ne_zero.mp ha
  have hbne : b ≠ 0 := Nat.pos_iff_ne_zero.mp hb
  refine ⟨?_, ?_, applyOp_preserves_build_pool⟩
  · have h1 : (InitGlobalBuildThreadPool initialRegistry a).1 =
        { build_pool_ := some (mkThreadPool a buildPoolName)
          search_pool_ := none
          buildCtorCalls := 1, searchCtorCalls := 0 } := by
      simp [InitGlobalBuildThreadPool, initialRegistry, hane]
    rw [h1]
    constructor
    · simp [InitGlobalBuildThreadPool, hbne]
    · simp [InitGlobalBuildThreadPool, hbne]
  · intro ops
    have hinv := registryInv_applyOps initialRegistry ops registryInv_initial
    obtain ⟨h1, h2⟩ := hinv
    constructor
    · rw [h1]; split <;> norm_num
    · rw [h2]; split <;> norm_num

/-- C6 witness: init with 2 then 3 on a fresh registry leaves the size-2
pool. -/
theorem globalPool_single_construction_witness :
    (InitGlobalBuildThreadPool
        (InitGlobalBuildThreadPool initialRegistry 2).1 3).1.build_pool_ =
      some (mkThreadPool 2 buildPoolName) :=
  (globalPool_single_construction 2 3 (by decide) (by decide)
    (by decide)).1.2

/-- C7 counterexample: the claim quantifies over every positive thread
count expressible in the constructor's `uint32_t` parameter, but `size()`
returns `int32_t`: at n = 2^31 the constructed pool reports
size() = -2^31, not n. -/
theorem threadPool_size_wraps :
    (mkThreadPool 2147483648 buildPoolName).size = -2147483648 ∧
    (mkThreadPool 2147483648 buildPoolName).size ≠ (2147483648 : Int) := by
  constructor
  · rfl
  · have hval : (mkThreadPool 2147483648 buildPoolName).size =
        -2147483648 := rfl
    rw [hval]
    decide

/-- C7 (amended): for every positive thread count below 2^31 (so that the
`int32_t` returned by `size()` can represent it) and any name prefix, the
constructed pool has `size()` equal to the count and a task queue of
capacity exactly count × 16; the capacity equation needs no upper bound
beyond the `uint32_t` domain. -/
theorem threadPool_ctor_size_capacity (n : Nat) (pfx : String)
    (h1 : 0 < n) (h2 : n < 2147483648) :
    (mkThreadPool n pfx).size = (n : Int) ∧
    (mkThreadPool n pfx).queueCapacity = n * 16 ∧
    (∀ m : Nat, (mkThreadPool m pfx).queueCapacity = m * 16) := by
  have hmod : n % 4294967296 = n :=
    Nat.mod_eq_of_lt (lt_trans h2 (by norm_num))
  refine ⟨?_, rfl, fun m => rfl⟩
  simp only [ThreadPool.size, mkThreadPool, toInt32, hmod]
  rw [if_pos (by exact_mod_cast h2)]

/-- C7 witness: a pool of 4 threads has size 4 and queue capacity 64. -/
theorem threadPool_ctor_size_capacity_witness :
    (mkThreadPool 4 buildPoolName).size = (4 : Int) ∧
    (mkThreadPool 4 buildPoolName).queueCapacity = 4 * 16 ∧
    (∀ m : Nat, (mkThreadPool m buildPoolName).queueCapacity = m * 16) :=
  threadPool_ctor_size_capacity 4 buildPoolName (by decide) (by decide)

/-- C9: the `uint32_t` positivity guards reject exactly 0: for every n
from 1 to 2^32 − 1 (the image of any nonzero argument, including a
converted negative signed value), init on an unset class constructs a pool
with n threads and `SetNumThreads` resizes any pool to n without
diagnostic. -/
theorem registry_guards_reject_only_zero (n : Nat) (p : ThreadPool)
    (h1 : 0 < n) (h2 : n < 4294967296) :
    (InitGlobalBuildThreadPool initialRegistry n).1.build_pool_ =
      some (mkThreadPool n buildPoolName) ∧
    (mkThreadPool n buildPoolName).numThreads = n ∧
    (p.SetNumThreads n).1.numThreads = n ∧
    (p.SetNumThreads n).2 = [] := by
  have hne : n ≠ 0 := Nat.pos_iff_ne_zero.mp h1
  refine ⟨?_, rfl, ?_, ?_⟩
  · simp [InitGlobalBuildThreadPool, initialRegistry, hne]
  · simp [ThreadPool.SetNumThreads, hne]
  · simp [ThreadPool.SetNumThreads, hne]

/-- C9 witness: at n = 2^32 − 1, the value produced by converting −1. -/
theorem registry_guards_reject_only_zero_witness :
    (InitGlobalBuildThreadPool initialRegistry 4294967295).1.build_pool_ =
      some (mkThreadPool 4294967295 buildPoolName) ∧
    (mkThreadPool 4294967295 buildPoolName).numThreads = 4294967295 ∧
    ((mkThreadPool 1 buildPoolName).SetNumThreads 4294967295).1.numThreads =
      4294967295 ∧
    ((mkThreadPool 1 buildPoolName).SetNumThreads 4294967295).2 = [] :=
  registry_guards_reject_only_zero 4294967295 (mkThreadPool 1 buildPoolName)
    (by decide) (by decide)

/-- C10: when the build pool exists, a guard constructed with
num_threads ≤ 0 sets the OMP budget to the build pool's size, and after
the scope the OMP budget equals the build pool's size at construction — so
whenever that size differs from the OMP budget current just before the
guard, the pre-guard budget is not restored. -/
theorem scopedOmpSetter_build_size_overrides (p : ThreadPool)
    (omp0 n : Int) (body : Int → Int) (hn : n ≤ 0) :
    (mkScopedOmpSetter (some p) omp0 n).2 = p.size ∧
    withScopedOmpSetter (some p) omp0 n body = p.size ∧
    (p.size ≠ omp0 → withScopedOmpSetter (some p) omp0 n body ≠ omp0) := by
  have h2 : (mkScopedOmpSetter (some p) omp0 n).2 = p.size := by
    simp [mkScopedOmpSetter, hn]
  have h3 : withScopedOmpSetter (some p) omp0 n body = p.size := by
    simp [withScopedOmpSetter, mkScopedOmpSetter, ScopedOmpSetter.destroy]
  exact ⟨h2, h3, fun hne => by rw [h3]; exact hne⟩

/-- C10 witness: build pool of 4 threads, OMP budget 8 before the guard,
guard constructed with the default argument 0: after the scope the OMP
budget is 4, not the pre-guard 8. -/
theorem scopedOmpSetter_build_size_overrides_witness :
    withScopedOmpSetter (some (mkThreadPool 4 buildPoolName)) 8 0 id =
      (mkThreadPool 4 buildPoolName).size :=
  (scopedOmpSetter_build_size_overrides (mkThreadPool 4 buildPoolName) 8 0
    id (by decide)).2.1

end KnowhereTP
